import Mathlib

/-!
# Verification of the terminal selection engine (src/ui.go)

Shallow embedding of the capability/layout/truncation/rendering/selection
core of the repository.  Go strings are byte sequences; they are modelled
as `List Char` (one `Char` per byte for the ASCII data the claims touch),
with `List.length` playing the role of Go's `len`.  Go `int` values are
modelled as `Int`.  Fallible operations return `Except`.  External
syscall outcomes (terminal probing, `term.Restore`, `os.Stdout.Stat`,
`os.Getenv`, reads from stdin) are supplied as explicit parameters, so
every definition is executable.
-/

/-- Environment profile (src/main.go:79).  The display fields `Name`,
`URL`, `Model` and the credential `APIKey`.  The optional `EnvVars` map is
omitted: none of the embedded display/selection operations read it. -/
structure Environment where
  Name : List Char
  URL : List Char
  APIKey : List Char
  Model : List Char
  deriving Repr, DecidableEq

/-- Configuration holding the ordered profile list (src/main.go:88); the
optional `Settings` field is omitted: the selection engine never reads
it. -/
structure Config where
  Environments : List Environment
  deriving Repr, DecidableEq

/-- Result of `detectTerminalCapabilities` (src/ui.go:15).  The probe itself
performs I/O; its result is passed into the pure layer as a value. -/
structure terminalCapabilities where
  IsTerminal : Bool
  SupportsRaw : Bool
  SupportsANSI : Bool
  SupportsCursor : Bool
  Width : Int
  Height : Int
  deriving Repr, DecidableEq

/-- Responsive layout constraints (src/ui.go:25). -/
structure TerminalLayout where
  Width : Int
  Height : Int
  SupportsANSI : Bool
  ContentWidth : Int
  TruncationLimit : Int
  deriving Repr, DecidableEq

/-- `detectTerminalLayout` (src/ui.go:350), as a function of the probed
capabilities.  `uiOverhead` is 8, or 4 for widths under 40; content width is
floored at 20 and the truncation limit at 10. -/
def detectTerminalLayout (caps : terminalCapabilities) : TerminalLayout :=
  let uiOverhead : Int := if caps.Width < 40 then 4 else 8
  let contentWidth0 := caps.Width - uiOverhead
  let contentWidth := if contentWidth0 < 20 then 20 else contentWidth0
  let truncationLimit0 := contentWidth - 10
  let truncationLimit := if truncationLimit0 < 10 then 10 else truncationLimit0
  { Width := caps.Width
    Height := caps.Height
    SupportsANSI := caps.SupportsANSI
    ContentWidth := contentWidth
    TruncationLimit := truncationLimit }

/-- Column-width formatter (src/ui.go:34). -/
structure DisplayFormatter where
  layout : TerminalLayout
  nameWidth : Int
  urlWidth : Int
  modelWidth : Int
  deriving Repr, DecidableEq

/-- `newDisplayFormatter` (src/ui.go:382).  The Go source computes
`int(float64(contentSpace) * p)` for the proportions 0.40/0.45/0.15; for
every content width of terminal scale (all values below 2^50) the IEEE
double computation agrees with the integer floor `contentSpace * k / 100`
used here.  Each column is then floored at its minimum (8/10/6). -/
def newDisplayFormatter (layout : TerminalLayout) : DisplayFormatter :=
  let contentSpace := layout.ContentWidth
  let nameWidth0 := contentSpace * 40 / 100
  let urlWidth0 := contentSpace * 45 / 100
  let modelWidth0 := contentSpace * 15 / 100
  { layout := layout
    nameWidth := if nameWidth0 < 8 then 8 else nameWidth0
    urlWidth := if urlWidth0 < 10 then 10 else urlWidth0
    modelWidth := if modelWidth0 < 6 then 6 else modelWidth0 }

/-- `smartTruncateName` (src/ui.go:408): ellipsis in the middle, keeping a
prefix and suffix of the name; plain prefix truncation when the column is
narrower than 8.  Go string slicing `name[:k]` / `name[len(name)-k:]`
becomes `take` / `drop`. -/
def smartTruncateName (df : DisplayFormatter) (name : List Char) :
    List Char × Bool :=
  if (name.length : Int) ≤ df.nameWidth then (name, false)
  else if df.nameWidth < 8 then
    (name.take (df.nameWidth - 3).toNat ++ "...".toList, true)
  else
    let prefixLen := (df.nameWidth - 3) / 2
    let suffixLen := df.nameWidth - 3 - prefixLen
    (name.take prefixLen.toNat ++ "...".toList ++
       name.drop ((name.length : Int) - suffixLen).toNat, true)

/-- First split of a byte string around the separator `"://"`
(Go `strings.Contains` + `strings.SplitN(url, "://", 2)`); `none` when the
separator does not occur. -/
def splitOnURLSep : List Char → Option (List Char × List Char)
  | [] => none
  | ':' :: '/' :: '/' :: rest => some ([], rest)
  | c :: rest =>
    match splitOnURLSep rest with
    | some (pre, post) => some (c :: pre, post)
    | none => none

/-- `smartTruncateURL` (src/ui.go:425): keep `scheme://domain` plus an
ellipsis when that fits in `urlWidth - 3`, otherwise plain prefix
truncation.  `strings.Index(remaining, "/")` returning -1 is immediately
replaced by `len(remaining)` in the source, which the `match` reflects. -/
def smartTruncateURL (df : DisplayFormatter) (url : List Char) :
    List Char × Bool :=
  if (url.length : Int) ≤ df.urlWidth then (url, false)
  else
    match splitOnURLSep url with
    | some (proto, remaining) =>
      let protocol := proto ++ "://".toList
      let domainEndIdx : Int :=
        match remaining.findIdx? (fun c => c = '/') with
        | some i => (i : Int)
        | none => (remaining.length : Int)
      let domain := remaining.take domainEndIdx.toNat
      let protocolDomainLen : Int := (protocol.length : Int) + domain.length
      if protocolDomainLen ≤ df.urlWidth - 3 then
        (protocol ++ domain ++ "...".toList, true)
      else
        (url.take (df.urlWidth - 3).toNat ++ "...".toList, true)
    | none => (url.take (df.urlWidth - 3).toNat ++ "...".toList, true)

/-- `smartTruncateModel` (src/ui.go:457): the empty model becomes the
placeholder `"default"` (not flagged as truncated); otherwise plain prefix
truncation to the model column. -/
def smartTruncateModel (df : DisplayFormatter) (model : List Char) :
    List Char × Bool :=
  if model = [] then ("default".toList, false)
  else if (model.length : Int) ≤ df.modelWidth then (model, false)
  else (model.take (df.modelWidth - 3).toNat ++ "...".toList, true)

/-- `formatSingleLine` (src/ui.go:502): compose `pfx name (url) [model]`
within the layout width; a minimal `pfx name` format when fewer than 20
columns remain for content; a final safety truncation on the composed
line.  The space distribution again models `int(float64(maxContentLen)*p)`
by the agreeing integer floor. -/
def formatSingleLine (df : DisplayFormatter) (pfx : List Char)
    (env : Environment) : List Char :=
  let prefixLen : Int := pfx.length
  let staticOverhead : Int := 6
  let maxContentLen := df.layout.Width - prefixLen - staticOverhead
  if maxContentLen < 20 then
    let name :=
      if (env.Name.length : Int) > 10 then env.Name.take 7 ++ "...".toList
      else env.Name
    pfx ++ name
  else
    let nameSpace0 := maxContentLen * 40 / 100
    let urlSpace0 := maxContentLen * 45 / 100
    let modelSpace0 := maxContentLen - nameSpace0 - urlSpace0
    let nameSpace := if nameSpace0 < 8 then 8 else nameSpace0
    let urlSpace := if urlSpace0 < 10 then 10 else urlSpace0
    let modelSpace := if modelSpace0 < 6 then 6 else modelSpace0
    let name :=
      if (env.Name.length : Int) > nameSpace then
        if nameSpace > 3 then env.Name.take (nameSpace - 3).toNat ++ "...".toList
        else env.Name.take nameSpace.toNat
      else env.Name
    let url :=
      if (env.URL.length : Int) > urlSpace then
        if urlSpace > 3 then env.URL.take (urlSpace - 3).toNat ++ "...".toList
        else env.URL.take urlSpace.toNat
      else env.URL
    let model0 := if env.Model = [] then "default".toList else env.Model
    let model :=
      if (model0.length : Int) > modelSpace then
        if modelSpace > 3 then model0.take (modelSpace - 3).toNat ++ "...".toList
        else model0.take modelSpace.toNat
      else model0
    let line := pfx ++ name ++ " (".toList ++ url ++ ") [".toList ++
      model ++ "]".toList
    if (line.length : Int) > df.layout.Width then
      let maxLen := df.layout.Width - 3
      if maxLen > 0 then line.take maxLen.toNat ++ "...".toList
      else line.take df.layout.Width.toNat
    else line

/-- Arrow key classification (src/ui.go:584). -/
inductive ArrowKey
  | ArrowNone
  | ArrowUp
  | ArrowDown
  | ArrowLeft
  | ArrowRight
  deriving Repr, DecidableEq

/-- `parseKeyInput` (src/ui.go:595) over the raw byte chunk read from
stdin.  Bytes are `Nat` values; the returned rune payload is the byte
value (`'\n'` = 10, `'\x1b'` = 27, `'\x03'` = 3). -/
def parseKeyInput : List Nat → Except (List Char) (ArrowKey × Nat)
  | [] => .error "empty input".toList
  | [b] =>
    if b = 10 ∨ b = 13 then .ok (.ArrowNone, 10)
    else if b = 27 then .ok (.ArrowNone, 27)
    else if b = 3 then .ok (.ArrowNone, 3)
    else .ok (.ArrowNone, b)
  | b0 :: b1 :: b2 :: _ =>
    if b0 = 27 ∧ b1 = 91 then
      if b2 = 65 then .ok (.ArrowUp, 0)
      else if b2 = 66 then .ok (.ArrowDown, 0)
      else if b2 = 67 then .ok (.ArrowRight, 0)
      else if b2 = 68 then .ok (.ArrowLeft, 0)
      else .error "unrecognized key sequence".toList
    else .error "unrecognized key sequence".toList
  | _ => .error "unrecognized key sequence".toList

/-- Display bookkeeping for differential rendering (src/ui.go:51). -/
structure DisplayState where
  currentLines : List (List Char)
  headerLine : List Char
  footerLine : List Char
  terminalWidth : Int
  terminalHeight : Int
  lastSelection : Int
  currentSelection : Int
  initialized : Bool
  contentChanged : Bool
  selectionChanged : Bool
  deriving Repr, DecidableEq

/-- `DisplayState.UpdateContent` (src/ui.go:105).  The Go range loop that
compares element-by-element only runs when the lengths already agree, so it
is exactly an `any`-differs over the zipped lists. -/
def DisplayState.UpdateContent (ds : DisplayState) (lines : List (List Char))
    (selection : Int) : DisplayState :=
  if !ds.initialized then ds
  else
    let contentChanged : Bool :=
      if lines.length = ds.currentLines.length then
        (List.zip lines ds.currentLines).any fun p => decide (p.1 ≠ p.2)
      else true
    let selectionChanged : Bool :=
      decide (selection ≠ ds.currentSelection) && !contentChanged
    { ds with
      currentLines := lines
      lastSelection := ds.currentSelection
      currentSelection := selection
      contentChanged := contentChanged
      selectionChanged := selectionChanged }

/-- Raw-mode guard handle (src/ui.go:81).  The opaque `*term.State` is
modelled as `Option Unit` (`none` = the nil pointer left by a failed
acquisition). -/
structure terminalState where
  fd : Int
  oldState : Option Unit
  restored : Bool
  deriving Repr, DecidableEq

/-- `terminalState.restore` (src/ui.go:301).  The outcome of the external
`term.Restore` syscall is supplied as `restoreResult` (`some msg` = the
syscall failed with that message); the guard returns the error only on the
first effective release. -/
def terminalState.restore (ts : terminalState)
    (restoreResult : Option (List Char)) : terminalState × Option (List Char) :=
  if ts.restored || ts.oldState.isNone then (ts, none)
  else ({ ts with restored := true }, restoreResult)

/-- `terminalState.ensureRestore` (src/ui.go:310): demote a restoration
failure to a warning line on the diagnostic stream; never an error. -/
def terminalState.ensureRestore (ts : terminalState)
    (restoreResult : Option (List Char)) : terminalState × List (List Char) :=
  match ts.restore restoreResult with
  | (ts2, some err) =>
    (ts2, ["Warning: failed to restore terminal: ".toList ++ err])
  | (ts2, none) => (ts2, [])

/-- External process facts consumed by `isHeadlessMode` and the raw-mode
acquisition: the result of `os.Stdout.Stat()`, the character-device bit of
its mode, the environment lookup, and whether `term.MakeRaw` succeeds. -/
structure OSEnv where
  stdoutStatOk : Bool
  stdoutIsCharDevice : Bool
  getenv : String → List Char
  makeRawOk : Bool

/-- CI indicator variables probed by `isHeadlessMode` (src/ui.go:840). -/
def ciVars : List String :=
  ["CI", "CONTINUOUS_INTEGRATION", "GITHUB_ACTIONS", "GITLAB_CI", "JENKINS_URL"]

/-- `isHeadlessMode` (src/ui.go:833).  When `os.Stdout.Stat()` succeeds the
function returns immediately with the redirection test; the CI variables
are consulted only when the stat call fails. -/
def isHeadlessMode (env : OSEnv) : Bool :=
  if env.stdoutStatOk then !env.stdoutIsCharDevice
  else ciVars.any fun v => !(env.getenv v).isEmpty

/-- The headless indicator as the spec's words state it, for comparison
with `isHeadlessMode`: redirected standard output OR at least one CI
indicator variable set. -/
def specHeadlessIndicator (env : OSEnv) : Bool :=
  !env.stdoutIsCharDevice || ciVars.any fun v => !(env.getenv v).isEmpty

/-- Index update performed by the `ArrowUp` case of the tier-1/tier-2 read
loops (src/ui.go:766 and src/ui.go:811): `(i - 1 + count) % count`.  Both
operands are nonnegative there, where Go's `%` agrees with `Int.emod`. -/
def navUp (count idx : Int) : Int := (idx - 1 + count) % count

/-- Index update performed by the `ArrowDown` case of the tier-1/tier-2
read loops (src/ui.go:768 and src/ui.go:813): `(i + 1) % count`. -/
def navDown (count idx : Int) : Int := (idx + 1) % count

/-- Fallback value for Go slice indexing; every embedded index access is
within bounds (Go would panic otherwise), so it is never returned. -/
def defaultEnvironment : Environment :=
  { Name := [], URL := [], APIKey := [], Model := [] }

/-- UTF-8 bytes of the selected-row marker `"► "` (src/ui.go:236); kept at
byte granularity because `formatSingleLine` measures the prefix with Go's
byte-counting `len`. -/
def arrowSelectionMarker : List Char :=
  [Char.ofNat 0xE2, Char.ofNat 0x96, Char.ofNat 0xBA, ' ']

/-- Menu content built by `LineRenderer.RenderMenu` (src/ui.go:217):
optional header, then one formatted line per environment with the
selection marker (`"► "` with ANSI, `"* "` without) or a two-space
indent.  The `DisplayState` diffing only controls how the same lines are
written; the rendered content is this list. -/
def buildMenuLines (caps : terminalCapabilities) (environments : List Environment)
    (selectedIndex : Int) (header : List Char) (useANSI : Bool) :
    List (List Char) :=
  let formatter := newDisplayFormatter (detectTerminalLayout caps)
  let rows := environments.enum.map fun p =>
    let pfx :=
      if (p.1 : Int) = selectedIndex then
        if useANSI then arrowSelectionMarker else "* ".toList
      else "  ".toList
    formatSingleLine formatter pfx p.2
  if header = [] then rows else header :: rows

/-- Error message for an empty profile list (src/ui.go:697 and
src/ui.go:957). -/
def noEnvironmentsMsg : List Char :=
  "no environments configured - use 'add' command to create one".toList

/-- ASCII white space trimmed by `strings.TrimSpace` for the line input of
the numbered tier (the inputs the claims touch are ASCII). -/
def isSpaceChar (c : Char) : Bool :=
  c = ' ' || c = '\t' || c = '\n' || c = '\x0b' || c = '\x0c' || c = '\r'

/-- `strings.TrimSpace`. -/
def trimSpace (s : List Char) : List Char :=
  ((s.dropWhile isSpaceChar).reverse.dropWhile isSpaceChar).reverse

/-- Decimal digit run for `strconv.Atoi`. -/
def parseDigits : List Char → Option Nat
  | [] => none
  | cs =>
    if cs.all fun c => c.isDigit then
      some (cs.foldl (fun acc c => acc * 10 + (c.toNat - 48)) 0)
    else none

/-- `strconv.Atoi` on a trimmed line: optional sign then decimal digits
(the bounded-int overflow of Go is irrelevant at menu scale). -/
def Atoi (s : List Char) : Option Int :=
  match s with
  | '+' :: rest => (parseDigits rest).map fun n => (n : Int)
  | '-' :: rest => (parseDigits rest).map fun n => -(n : Int)
  | _ => (parseDigits s).map fun n => (n : Int)

/-- `regularInput` (src/ui.go:934): print the prompt, read one
newline-terminated line (one stdin chunk in this model), trim white
space.  Produces the result, the remaining input and the printed text. -/
def regularInput (pr : List Char) (inputs : List (List Nat)) :
    Except (List Char) (List Char) × List (List Nat) × List (List Char) :=
  match inputs with
  | [] => (.error "failed to read input".toList, [], [pr])
  | chunk :: rest => (.ok (trimSpace (chunk.map Char.ofNat)), rest, [pr])

/-- `selectEnvironmentOriginal` (src/ui.go:955): the numbered tier.
Degenerate checks first; then the numbered menu (same formatter), one line
of input, `strconv.Atoi`, and the range check `[1, count]`. -/
def selectEnvironmentOriginal (caps : terminalCapabilities) (config : Config)
    (inputs : List (List Nat)) :
    Except (List Char) Environment × List (List Nat) × List (List Char) :=
  if config.Environments = [] then (.error noEnvironmentsMsg, inputs, [])
  else if config.Environments.length = 1 then
    (.ok (config.Environments.headD defaultEnvironment), inputs, [])
  else
    let formatter := newDisplayFormatter (detectTerminalLayout caps)
    let menu := "Select environment:".toList ::
      config.Environments.enum.map fun p =>
        formatSingleLine formatter (Nat.toDigits 10 (p.1 + 1) ++ ". ".toList) p.2
    let pr := "Enter number (1-".toList ++
      Nat.toDigits 10 config.Environments.length ++ "): ".toList
    match regularInput pr inputs with
    | (.error e, rest, out) =>
      (.error ("environment selection failed: ".toList ++ e), rest, menu ++ out)
    | (.ok line, rest, out) =>
      match Atoi line with
      | none =>
        (.error "invalid selection - must be a number".toList, rest, menu ++ out)
      | some choice =>
        if choice < 1 ∨ choice > (config.Environments.length : Int) then
          (.error ("invalid selection - must be between 1 and ".toList ++
             Nat.toDigits 10 config.Environments.length), rest, menu ++ out)
        else
          (.ok (config.Environments.getD (choice - 1).toNat defaultEnvironment),
           rest, menu ++ out)

/-- `fallbackToNumberedSelection` (src/ui.go:851): print the notice and run
the numbered tier. -/
def fallbackToNumberedSelection (caps : terminalCapabilities) (config : Config)
    (inputs : List (List Nat)) :
    Except (List Char) Environment × List (List Nat) × List (List Char) :=
  let r := selectEnvironmentOriginal caps config inputs
  (r.1, r.2.1,
   "Arrow key navigation not supported, using numbered selection:".toList ::
     r.2.2)

/-- Header shown by tier 1 (src/ui.go:690). -/
def headerFull : List Char :=
  "Select environment (use ↑↓ arrows, Enter to confirm, Esc to cancel):".toList

/-- Header shown by tier 2 (src/ui.go:828). -/
def headerBasic : List Char :=
  "Select environment (use arrows, Enter to confirm, Esc to cancel):".toList

/-- The shared read loop of `fullInteractiveSelection` (src/ui.go:751) and
`basicInteractiveSelection` (src/ui.go:796): render the menu, read a
chunk, classify it, move the selection cyclically or return.  A read
error (exhausted input) downgrades to the numbered fallback.  Inputs whose
classification errors are skipped (`continue`). -/
def interactiveLoop (caps : terminalCapabilities) (config : Config)
    (useANSI : Bool) (header : List Char) :
    Int → List (List Nat) →
      Except (List Char) Environment × List (List Nat) × List (List Char)
  | _, [] => fallbackToNumberedSelection caps config []
  | idx, chunk :: rest =>
    let menu := buildMenuLines caps config.Environments idx header useANSI
    let count : Int := config.Environments.length
    let next :=
      match parseKeyInput chunk with
      | .error _ => interactiveLoop caps config useANSI header idx rest
      | .ok (.ArrowUp, _) =>
        interactiveLoop caps config useANSI header (navUp count idx) rest
      | .ok (.ArrowDown, _) =>
        interactiveLoop caps config useANSI header (navDown count idx) rest
      | .ok (.ArrowLeft, _) =>
        interactiveLoop caps config useANSI header idx rest
      | .ok (.ArrowRight, _) =>
        interactiveLoop caps config useANSI header idx rest
      | .ok (.ArrowNone, ch) =>
        if ch = 10 ∨ ch = 13 then
          (.ok (config.Environments.getD idx.toNat defaultEnvironment),
           rest, [])
        else if ch = 27 ∨ ch = 3 then
          (.error "selection cancelled".toList, rest, [])
        else interactiveLoop caps config useANSI header idx rest
    (next.1, next.2.1, menu ++ next.2.2)

/-- `basicInteractiveSelection` (src/ui.go:781): tier 2.  A failed raw-mode
acquisition falls back to the numbered tier. -/
def basicInteractiveSelection (caps : terminalCapabilities) (osenv : OSEnv)
    (config : Config) (inputs : List (List Nat)) :
    Except (List Char) Environment × List (List Nat) × List (List Char) :=
  if !osenv.makeRawOk then fallbackToNumberedSelection caps config inputs
  else interactiveLoop caps config false headerBasic 0 inputs

/-- `fullInteractiveSelection` (src/ui.go:735): tier 1.  A failed raw-mode
acquisition falls back to tier 2. -/
def fullInteractiveSelection (caps : terminalCapabilities) (osenv : OSEnv)
    (config : Config) (inputs : List (List Nat)) :
    Except (List Char) Environment × List (List Nat) × List (List Char) :=
  if !osenv.makeRawOk then basicInteractiveSelection caps osenv config inputs
  else interactiveLoop caps config true headerFull 0 inputs

/-- Informational line of the headless tier (src/ui.go:712). -/
def headlessInfoLine (name : List Char) : List Char :=
  "Headless mode: using first environment '".toList ++ name ++ "'".toList

/-- `selectEnvironmentWithArrows` (src/ui.go:695): degenerate checks, then
the four-tier dispatch on the probed capabilities. -/
def selectEnvironmentWithArrows (caps : terminalCapabilities) (osenv : OSEnv)
    (config : Config) (inputs : List (List Nat)) :
    Except (List Char) Environment × List (List Nat) × List (List Char) :=
  if config.Environments = [] then (.error noEnvironmentsMsg, inputs, [])
  else if config.Environments.length = 1 then
    (.ok (config.Environments.headD defaultEnvironment), inputs, [])
  else if !caps.IsTerminal then
    if isHeadlessMode osenv then
      match config.Environments with
      | e :: _ => (.ok e, inputs, [headlessInfoLine e.Name])
      | [] =>
        (.error "no environments available for headless mode".toList,
         inputs, [])
    else fallbackToNumberedSelection caps config inputs
  else if caps.SupportsRaw && caps.SupportsANSI && caps.SupportsCursor then
    fullInteractiveSelection caps osenv config inputs
  else if caps.SupportsRaw then
    basicInteractiveSelection caps osenv config inputs
  else fallbackToNumberedSelection caps config inputs

/-- Capability record of a plain interactive terminal of the given width
(height 24, every feature supported), used to instantiate theorems at
concrete widths. -/
def sampleCaps (w : Int) : terminalCapabilities :=
  { IsTerminal := true, SupportsRaw := true, SupportsANSI := true,
    SupportsCursor := true, Width := w, Height := 24 }

/-- The capabilities of a non-TTY session (piped stdin) at width 80. -/
def sampleCapsNoTTY : terminalCapabilities :=
  { IsTerminal := false, SupportsRaw := false, SupportsANSI := true,
    SupportsCursor := true, Width := 80, Height := 24 }

/-- Process facts of a session whose stdout stat succeeds, whose stdout is
an interactive character device, and whose environment sets CI=1. -/
def sampleCIEnv : OSEnv :=
  { stdoutStatOk := true, stdoutIsCharDevice := true,
    getenv := fun v => if v = "CI" then ['1'] else [], makeRawOk := true }

/-- Process facts of a session with stdout redirected to a pipe and no CI
variables set. -/
def sampleRedirectedEnv : OSEnv :=
  { stdoutStatOk := true, stdoutIsCharDevice := false,
    getenv := fun _ => [], makeRawOk := true }

/-- A singleton-profile configuration and its profile. -/
def sampleEnvProd : Environment :=
  { Name := "prod".toList, URL := [], APIKey := [], Model := [] }

/-- The configuration holding only `sampleEnvProd`. -/
def sampleConfig1 : Config := { Environments := [sampleEnvProd] }

/-- First profile of the two-profile sample configuration. -/
def sampleEnvA : Environment :=
  { Name := "prod".toList, URL := "https://a.example".toList,
    APIKey := "k1".toList, Model := "m1".toList }

/-- Second profile of the two-profile sample configuration. -/
def sampleEnvB : Environment :=
  { Name := "dev".toList, URL := "https://b.example".toList,
    APIKey := "k2".toList, Model := [] }

/-- A two-profile configuration for concrete instantiations. -/
def sampleConfig2 : Config := { Environments := [sampleEnvA, sampleEnvB] }

/-- C4: For every terminal width ≥ 1, the computed layout satisfies
`contentWidth = max (width - uiOverhead) 20` with `uiOverhead = 4` for
widths under 40 and 8 otherwise, and
`truncationLimit = max (contentWidth - 10) 10`; hence the floors
`contentWidth ≥ 20` and `truncationLimit ≥ 10` always hold, width 80 gives
72/62 and width 15 gives the floors 20/10. -/
theorem detectTerminalLayout_floors (caps : terminalCapabilities)
    (h : 1 ≤ caps.Width) :
    (detectTerminalLayout caps).ContentWidth =
      max (caps.Width - (if caps.Width < 40 then 4 else 8)) 20 ∧
    (detectTerminalLayout caps).TruncationLimit =
      max ((detectTerminalLayout caps).ContentWidth - 10) 10 ∧
    20 ≤ (detectTerminalLayout caps).ContentWidth ∧
    10 ≤ (detectTerminalLayout caps).TruncationLimit ∧
    (caps.Width = 80 → (detectTerminalLayout caps).ContentWidth = 72 ∧
      (detectTerminalLayout caps).TruncationLimit = 62) ∧
    (caps.Width = 15 → (detectTerminalLayout caps).ContentWidth = 20 ∧
      (detectTerminalLayout caps).TruncationLimit = 10) := by
  simp only [detectTerminalLayout]
  split_ifs <;> omega

/-- Witness for C4 at the concrete width 80. -/
theorem detectTerminalLayout_floors_witness :
    1 ≤ (80 : Int) ∧
    (detectTerminalLayout
        { IsTerminal := true, SupportsRaw := true, SupportsANSI := true,
          SupportsCursor := true, Width := 80, Height := 24 }).ContentWidth =
      max ((80 : Int) - (if (80 : Int) < 40 then 4 else 8)) 20 := by
  refine ⟨by norm_num, ?_⟩
  exact (detectTerminalLayout_floors
    { IsTerminal := true, SupportsRaw := true, SupportsANSI := true,
      SupportsCursor := true, Width := 80, Height := 24 } (by norm_num)).1

/-- C5: For every layout, the three column widths are the 40%/45%/15%
proportions of the content width floored at the minimums 8/10/6 (so the
floors hold regardless of the content width), and terminal width 80
(content width 72) yields name/url/model widths 28/32/10. -/
theorem newDisplayFormatter_columns (layout : TerminalLayout)
    (caps : terminalCapabilities) :
    8 ≤ (newDisplayFormatter layout).nameWidth ∧
    10 ≤ (newDisplayFormatter layout).urlWidth ∧
    6 ≤ (newDisplayFormatter layout).modelWidth ∧
    (newDisplayFormatter layout).nameWidth =
      max (layout.ContentWidth * 40 / 100) 8 ∧
    (newDisplayFormatter layout).urlWidth =
      max (layout.ContentWidth * 45 / 100) 10 ∧
    (newDisplayFormatter layout).modelWidth =
      max (layout.ContentWidth * 15 / 100) 6 ∧
    (caps.Width = 80 →
      (detectTerminalLayout caps).ContentWidth = 72 ∧
      (newDisplayFormatter (detectTerminalLayout caps)).nameWidth = 28 ∧
      (newDisplayFormatter (detectTerminalLayout caps)).urlWidth = 32 ∧
      (newDisplayFormatter (detectTerminalLayout caps)).modelWidth = 10) := by
  constructor
  · simp only [newDisplayFormatter]; split_ifs <;> omega
  constructor
  · simp only [newDisplayFormatter]; split_ifs <;> omega
  constructor
  · simp only [newDisplayFormatter]; split_ifs <;> omega
  constructor
  · simp only [newDisplayFormatter]; split_ifs <;> omega
  constructor
  · simp only [newDisplayFormatter]; split_ifs <;> omega
  constructor
  · simp only [newDisplayFormatter]; split_ifs <;> omega
  · intro hW
    simp only [detectTerminalLayout, newDisplayFormatter, hW]
    norm_num

/-- Witness for C5 at terminal width 80. -/
theorem newDisplayFormatter_columns_witness :
    ((80 : Int) = 80) ∧
    ((newDisplayFormatter (detectTerminalLayout
        { IsTerminal := true, SupportsRaw := true, SupportsANSI := true,
          SupportsCursor := true, Width := 80, Height := 24 })).nameWidth = 28 ∧
     (newDisplayFormatter (detectTerminalLayout
        { IsTerminal := true, SupportsRaw := true, SupportsANSI := true,
          SupportsCursor := true, Width := 80, Height := 24 })).urlWidth = 32 ∧
     (newDisplayFormatter (detectTerminalLayout
        { IsTerminal := true, SupportsRaw := true, SupportsANSI := true,
          SupportsCursor := true, Width := 80, Height := 24 })).modelWidth = 10) :=
  ⟨rfl,
   ((newDisplayFormatter_columns
      (detectTerminalLayout
        { IsTerminal := true, SupportsRaw := true, SupportsANSI := true,
          SupportsCursor := true, Width := 80, Height := 24 })
      { IsTerminal := true, SupportsRaw := true, SupportsANSI := true,
        SupportsCursor := true, Width := 80, Height := 24 }).2.2.2.2.2.2
     rfl).2⟩

/-- C1 counterexample: the formatter for terminal width 15 has the floor
model column 6, yet the empty model maps to the 7-byte placeholder
"default", exceeding the column width. -/
theorem smartTruncateModel_placeholder_overflow :
    (newDisplayFormatter (detectTerminalLayout (sampleCaps 15))).modelWidth = 6 ∧
    (smartTruncateModel
        (newDisplayFormatter (detectTerminalLayout (sampleCaps 15))) []).1 =
      "default".toList ∧
    ¬ (((smartTruncateModel
          (newDisplayFormatter (detectTerminalLayout (sampleCaps 15))) []).1.length : Int) ≤
        (newDisplayFormatter (detectTerminalLayout (sampleCaps 15))).modelWidth) := by
  refine ⟨by decide, by decide, by decide⟩

/-- C1 (amended): with each column at or above its floor, the name and URL
truncators return at most the column width; the model truncator returns at
most `max modelWidth 7` — the empty model becomes the 7-byte placeholder
"default" (not flagged as truncated), which exceeds the column only when
`modelWidth = 6`; every nonempty model result fits the column. -/
theorem truncators_length_bounded (df : DisplayFormatter)
    (name url model : List Char)
    (hn : 8 ≤ df.nameWidth) (hu : 10 ≤ df.urlWidth) (hm : 6 ≤ df.modelWidth) :
    ((smartTruncateName df name).1.length : Int) ≤ df.nameWidth ∧
    ((smartTruncateURL df url).1.length : Int) ≤ df.urlWidth ∧
    ((smartTruncateModel df model).1.length : Int) ≤ max df.modelWidth 7 ∧
    (model ≠ [] → ((smartTruncateModel df model).1.length : Int) ≤ df.modelWidth) ∧
    (model = [] → smartTruncateModel df model = ("default".toList, false)) := by
  have hdots : ("...".toList).length = 3 := by decide
  have hdef : ("default".toList).length = 7 := by decide
  refine ⟨?_, ?_, ?_, ?_, ?_⟩
  · simp only [smartTruncateName]
    split_ifs with h1 h2
    · exact h1
    · omega
    · dsimp only
      simp only [List.length_append, List.length_take, List.length_drop, hdots]
      omega
  · simp only [smartTruncateURL]
    split_ifs with h1
    · exact h1
    · rcases hsplit : splitOnURLSep url with _ | ⟨proto, remaining⟩
      · simp only [hsplit]
        simp only [List.length_append, List.length_take, hdots]
        omega
      · simp only [hsplit]
        split_ifs with h2
        · dsimp only
          simp only [List.length_append, hdots] at h2 ⊢
          push_cast at h2 ⊢
          omega
        · dsimp only
          simp only [List.length_append, List.length_take, hdots]
          omega
  · simp only [smartTruncateModel]
    split_ifs with h1 h2
    · dsimp only
      rw [hdef]; omega
    · dsimp only
      omega
    · dsimp only
      simp only [List.length_append, List.length_take, hdots]
      omega
  · intro hne
    simp only [smartTruncateModel, if_neg hne]
    split_ifs with h2
    · exact h2
    · dsimp only
      simp only [List.length_append, List.length_take, hdots]
      omega
  · intro he
    simp [smartTruncateModel, he]

/-- Witness for C1 (amended) at the width-80 formatter. -/
theorem truncators_length_bounded_witness :
    (8 ≤ (newDisplayFormatter (detectTerminalLayout (sampleCaps 80))).nameWidth ∧
     10 ≤ (newDisplayFormatter (detectTerminalLayout (sampleCaps 80))).urlWidth ∧
     6 ≤ (newDisplayFormatter (detectTerminalLayout (sampleCaps 80))).modelWidth) ∧
    ((smartTruncateName (newDisplayFormatter (detectTerminalLayout (sampleCaps 80)))
        "very-long-production-environment-name".toList).1.length : Int) ≤
      (newDisplayFormatter (detectTerminalLayout (sampleCaps 80))).nameWidth := by
  refine ⟨⟨by decide, by decide, by decide⟩, ?_⟩
  exact (truncators_length_bounded
    (newDisplayFormatter (detectTerminalLayout (sampleCaps 80)))
    "very-long-production-environment-name".toList [] []
    (by decide) (by decide) (by decide)).1

/-- C3 (code bug): at terminal width 11 the minimal-format path returns
the 12-byte line "  abcdefghij" (two-space prefix plus a 10-byte name),
which exceeds the layout width 11 — the final safety truncation guards
only the regular composition path, contradicting the bound the claim (and
the function's own doc comment) states. -/
theorem formatSingleLine_minimal_overflow :
    (newDisplayFormatter (detectTerminalLayout (sampleCaps 11))).layout.Width = 11 ∧
    formatSingleLine (newDisplayFormatter (detectTerminalLayout (sampleCaps 11)))
        "  ".toList
        { Name := "abcdefghij".toList, URL := "https://x.com".toList,
          APIKey := [], Model := [] } = "  abcdefghij".toList ∧
    ¬ ((("  abcdefghij".toList).length : Int) ≤
        (newDisplayFormatter (detectTerminalLayout (sampleCaps 11))).layout.Width) := by
  refine ⟨by decide, by decide, by decide⟩

/-- C6 counterexample: the four-byte chunk 0x1b '[' 'A' 'A' is not the
three-byte up-arrow sequence, yet the parser classifies it as up-arrow
instead of returning the "unrecognized" error the claim requires for every
other multi-byte input. -/
theorem parseKeyInput_fourBytes_classified :
    parseKeyInput [27, 91, 65, 65] = .ok (.ArrowUp, 0) := rfl

/-- C6 (amended): full characterization of the key classifier — empty
input errors; a single byte is confirm (10/13, payload '\n'), escape (27),
Ctrl-C (3) or the literal byte; every chunk of length ≥ 3 whose first
three bytes are 0x1b '[' 'A'..'D' is the corresponding arrow (trailing
bytes ignored); every other multi-byte chunk is the explicit
"unrecognized" error. -/
theorem parseKeyInput_characterization :
    parseKeyInput [] = .error "empty input".toList ∧
    (∀ b : Nat, parseKeyInput [b] = .ok (.ArrowNone, if b = 13 then 10 else b)) ∧
    (∀ rest : List Nat,
      parseKeyInput (27 :: 91 :: 65 :: rest) = .ok (.ArrowUp, 0) ∧
      parseKeyInput (27 :: 91 :: 66 :: rest) = .ok (.ArrowDown, 0) ∧
      parseKeyInput (27 :: 91 :: 67 :: rest) = .ok (.ArrowRight, 0) ∧
      parseKeyInput (27 :: 91 :: 68 :: rest) = .ok (.ArrowLeft, 0)) ∧
    (∀ b0 b1 : Nat,
      parseKeyInput [b0, b1] = .error "unrecognized key sequence".toList) ∧
    (∀ (b0 b1 b2 : Nat) (rest : List Nat),
      ¬ (b0 = 27 ∧ b1 = 91 ∧ (b2 = 65 ∨ b2 = 66 ∨ b2 = 67 ∨ b2 = 68)) →
      parseKeyInput (b0 :: b1 :: b2 :: rest) =
        .error "unrecognized key sequence".toList) := by
  refine ⟨rfl, ?_, ?_, ?_, ?_⟩
  · intro b
    simp only [parseKeyInput]
    split_ifs with h1 h2 h3 <;> simp_all
  · intro rest
    refine ⟨?_, ?_, ?_, ?_⟩ <;> simp [parseKeyInput]
  · intro b0 b1
    rfl
  · intro b0 b1 b2 rest hno
    simp only [parseKeyInput]
    split_ifs with h1 h2 h3 h4 h5 <;> simp_all

/-- Witness for C6 (amended): the two-byte escape prefix alone is
unrecognized. -/
theorem parseKeyInput_characterization_witness :
    (¬ ((27 : Nat) = 27 ∧ (91 : Nat) = 91 ∧
        ((90 : Nat) = 65 ∨ (90 : Nat) = 66 ∨ (90 : Nat) = 67 ∨ (90 : Nat) = 68))) ∧
    parseKeyInput [27, 91, 90] = .error "unrecognized key sequence".toList :=
  ⟨by decide, parseKeyInput_characterization.2.2.2.2 27 91 90 [] (by decide)⟩

/-- C7: in the interactive read loops, for a profile count ≥ 2 and a
current index in range, the up-arrow moves the selection to
`(idx - 1 + count) % count` and the down-arrow to `(idx + 1) % count`
(both staying in range); up from 0 lands on `count - 1` and down from
`count - 1` lands on 0; and one loop step on an up/down arrow chunk
continues exactly at the updated index. -/
theorem interactive_nav_wraparound (caps : terminalCapabilities)
    (config : Config) (useANSI : Bool) (header : List Char)
    (rest : List (List Nat)) (idx : Int)
    (hc : 2 ≤ config.Environments.length)
    (h0 : 0 ≤ idx) (hlt : idx < (config.Environments.length : Int)) :
    navUp (config.Environments.length : Int) idx =
      (idx - 1 + config.Environments.length) % config.Environments.length ∧
    navDown (config.Environments.length : Int) idx =
      (idx + 1) % config.Environments.length ∧
    (0 ≤ navUp (config.Environments.length : Int) idx ∧
      navUp (config.Environments.length : Int) idx <
        (config.Environments.length : Int)) ∧
    (0 ≤ navDown (config.Environments.length : Int) idx ∧
      navDown (config.Environments.length : Int) idx <
        (config.Environments.length : Int)) ∧
    navUp (config.Environments.length : Int) 0 =
      (config.Environments.length : Int) - 1 ∧
    navDown (config.Environments.length : Int)
      ((config.Environments.length : Int) - 1) = 0 ∧
    (interactiveLoop caps config useANSI header idx ([27, 91, 65] :: rest)).1 =
      (interactiveLoop caps config useANSI header
        (navUp (config.Environments.length : Int) idx) rest).1 ∧
    (interactiveLoop caps config useANSI header idx ([27, 91, 66] :: rest)).1 =
      (interactiveLoop caps config useANSI header
        (navDown (config.Environments.length : Int) idx) rest).1 := by
  have hpos : (0 : Int) < (config.Environments.length : Int) := by
    exact_mod_cast Nat.lt_of_lt_of_le Nat.zero_lt_two hc
  refine ⟨rfl, rfl, ⟨?_, ?_⟩, ⟨?_, ?_⟩, ?_, ?_, rfl, rfl⟩
  · exact Int.emod_nonneg _ (by omega)
  · exact Int.emod_lt_of_pos _ hpos
  · exact Int.emod_nonneg _ (by omega)
  · exact Int.emod_lt_of_pos _ hpos
  · show (0 - 1 + (config.Environments.length : Int)) %
        (config.Environments.length : Int) =
      (config.Environments.length : Int) - 1
    rw [Int.emod_eq_of_lt (by omega) (by omega)]
    ring
  · show ((config.Environments.length : Int) - 1 + 1) %
        (config.Environments.length : Int) = 0
    have h1 : ((config.Environments.length : Int) - 1 + 1) =
        (config.Environments.length : Int) := by ring
    rw [h1, Int.emod_self]

/-- Witness for C7 with two profiles at index 0. -/
theorem interactive_nav_wraparound_witness :
    (2 ≤ sampleConfig2.Environments.length ∧ (0 : Int) ≤ 0 ∧
      (0 : Int) < (sampleConfig2.Environments.length : Int)) ∧
    navUp (sampleConfig2.Environments.length : Int) 0 =
      (sampleConfig2.Environments.length : Int) - 1 := by
  refine ⟨⟨by decide, le_refl 0, by decide⟩, ?_⟩
  exact (interactive_nav_wraparound sampleCapsNoTTY sampleConfig2 true [] [] 0
    (by decide) (le_refl 0) (by decide)).2.2.2.2.1

/-- C9: the raw-mode guard's release is idempotent — a second release, or a
release on a handle with no saved state (failed acquisition), is a no-op
returning no error — and `ensureRestore` demotes a restoration failure to a
warning line instead of propagating the error. -/
theorem terminalState_release_guard (ts : terminalState)
    (r r2 : Option (List Char)) (err : List Char) :
    ((ts.restore r).1.restore r2 = ((ts.restore r).1, none)) ∧
    (ts.oldState = none → ts.restore r = (ts, none)) ∧
    (ts.restored = true → ts.restore r = (ts, none)) ∧
    ((ts.ensureRestore r).1 = (ts.restore r).1) ∧
    ((ts.restore r).2 = some err →
      (ts.ensureRestore r).2 =
        ["Warning: failed to restore terminal: ".toList ++ err]) ∧
    ((ts.restore r).2 = none → (ts.ensureRestore r).2 = []) := by
  refine ⟨?_, ?_, ?_, ?_, ?_, ?_⟩
  · simp only [terminalState.restore]
    split_ifs with h1 h2 <;> simp_all
  · intro h
    simp [terminalState.restore, h]
  · intro h
    simp [terminalState.restore, h]
  · rcases hres : ts.restore r with ⟨ts2, e⟩
    cases e <;> simp [terminalState.ensureRestore, hres]
  · intro h
    rcases hres : ts.restore r with ⟨ts2, e⟩
    rw [hres] at h
    simp only at h
    subst h
    simp [terminalState.ensureRestore, hres]
  · intro h
    rcases hres : ts.restore r with ⟨ts2, e⟩
    rw [hres] at h
    simp only at h
    subst h
    simp [terminalState.ensureRestore, hres]

/-- Witness for C9: releasing a handle that failed to acquire is a no-op. -/
theorem terminalState_release_guard_witness :
    ({ fd := 0, oldState := none, restored := false } : terminalState).oldState
        = none ∧
    ({ fd := 0, oldState := none, restored := false } : terminalState).restore
        (some "x".toList) =
      ({ fd := 0, oldState := none, restored := false }, none) :=
  ⟨rfl,
   (terminalState_release_guard
      { fd := 0, oldState := none, restored := false }
      (some "x".toList) none "x".toList).2.1 rfl⟩

/-- C10: on an initialized display state, the update sets
`selectionChanged` exactly when the new selection differs and the content
did not change (so both flags are never simultaneously true), stores the
new lines and selection, and shifts the previous current selection into
`lastSelection`. -/
theorem UpdateContent_flags (ds : DisplayState) (lines : List (List Char))
    (sel : Int) (h : ds.initialized = true) :
    ((ds.UpdateContent lines sel).selectionChanged = true ↔
      (sel ≠ ds.currentSelection ∧
        (ds.UpdateContent lines sel).contentChanged = false)) ∧
    (¬ ((ds.UpdateContent lines sel).contentChanged = true ∧
        (ds.UpdateContent lines sel).selectionChanged = true)) ∧
    (ds.UpdateContent lines sel).currentLines = lines ∧
    (ds.UpdateContent lines sel).currentSelection = sel ∧
    (ds.UpdateContent lines sel).lastSelection = ds.currentSelection := by
  have hne : (!ds.initialized) = false := by rw [h]; rfl
  simp only [DisplayState.UpdateContent, hne, Bool.false_eq_true, if_false]
  refine ⟨?_, ?_, ?_, ?_, ?_⟩
  · simp only [Bool.and_eq_true, decide_eq_true_eq, Bool.not_eq_true']
  · rintro ⟨hcc, hsc⟩
    simp only [Bool.and_eq_true, decide_eq_true_eq, Bool.not_eq_true'] at hsc
    rw [hcc] at hsc
    exact Bool.noConfusion hsc.2
  · trivial
  · trivial
  · trivial

/-- Witness for C10: an update with a fresh selection on unchanged lines
shifts the stored selection into `lastSelection`. -/
theorem UpdateContent_flags_witness :
    ({ currentLines := [], headerLine := [], footerLine := [],
       terminalWidth := 80, terminalHeight := 24, lastSelection := -1,
       currentSelection := 0, initialized := true, contentChanged := true,
       selectionChanged := false } : DisplayState).initialized = true ∧
    (({ currentLines := [], headerLine := [], footerLine := [],
        terminalWidth := 80, terminalHeight := 24, lastSelection := -1,
        currentSelection := 0, initialized := true, contentChanged := true,
        selectionChanged := false } : DisplayState).UpdateContent [] 1).lastSelection = 0 :=
  ⟨rfl,
   (UpdateContent_flags
      { currentLines := [], headerLine := [], footerLine := [],
        terminalWidth := 80, terminalHeight := 24, lastSelection := -1,
        currentSelection := 0, initialized := true, contentChanged := true,
        selectionChanged := false } [] 1 rfl).2.2.2.2⟩

/-- C8: for an empty profile list both the four-tier dispatcher and the
numbered tier return the no-profiles-configured error; for a single
profile both return that profile directly, printing nothing and consuming
no input — regardless of capabilities, process facts or pending input. -/
theorem selection_degenerate_inputs (caps : terminalCapabilities)
    (osenv : OSEnv) (config : Config) (inputs : List (List Nat))
    (e : Environment) :
    (config.Environments = [] →
      selectEnvironmentWithArrows caps osenv config inputs =
        (.error noEnvironmentsMsg, inputs, []) ∧
      selectEnvironmentOriginal caps config inputs =
        (.error noEnvironmentsMsg, inputs, [])) ∧
    (config.Environments = [e] →
      selectEnvironmentWithArrows caps osenv config inputs =
        (.ok e, inputs, []) ∧
      selectEnvironmentOriginal caps config inputs = (.ok e, inputs, [])) := by
  constructor
  · intro hempty
    constructor
    · simp [selectEnvironmentWithArrows, hempty]
    · simp [selectEnvironmentOriginal, hempty]
  · intro hone
    constructor
    · simp [selectEnvironmentWithArrows, hone]
    · simp [selectEnvironmentOriginal, hone]

/-- Witness for C8 with a singleton configuration and pending input. -/
theorem selection_degenerate_inputs_witness :
    sampleConfig1.Environments = [sampleEnvProd] ∧
    selectEnvironmentWithArrows (sampleCaps 80) sampleRedirectedEnv
        sampleConfig1 [[10]] = (.ok sampleEnvProd, [[10]], []) :=
  ⟨rfl,
   ((selection_degenerate_inputs (sampleCaps 80) sampleRedirectedEnv
      sampleConfig1 [[10]] sampleEnvProd).2 rfl).1⟩

/-- C2 counterexample: with stdin not a TTY, stdout an interactive
character device (its stat succeeding) and CI=1 set, the claim's
indicator (redirection OR a CI variable) is true, yet `isHeadlessMode`
returns false — the CI variables are never consulted when the stat
succeeds — so the dispatcher falls through to the numbered fallback
instead of selecting the first profile. -/
theorem isHeadlessMode_ci_var_ignored :
    specHeadlessIndicator sampleCIEnv = true ∧
    isHeadlessMode sampleCIEnv = false ∧
    selectEnvironmentWithArrows sampleCapsNoTTY sampleCIEnv sampleConfig2 [] =
      fallbackToNumberedSelection sampleCapsNoTTY sampleConfig2 [] :=
  ⟨rfl, rfl, rfl⟩

/-- C2 (amended): with stdin not a TTY and at least two profiles, the
dispatcher selects the first profile and prints the informational line
exactly when `isHeadlessMode` holds — i.e. when the stdout stat succeeds,
exactly when stdout is not a character device (the CI variables being
ignored), and only when the stat fails, exactly when some CI indicator
variable is set; otherwise it falls through to the numbered fallback. -/
theorem headless_tier_condition (caps : terminalCapabilities) (osenv : OSEnv)
    (config : Config) (inputs : List (List Nat)) (e : Environment)
    (tl : List Environment) (hT : caps.IsTerminal = false)
    (henv : config.Environments = e :: tl)
    (h2 : 2 ≤ config.Environments.length) :
    (isHeadlessMode osenv =
      if osenv.stdoutStatOk then !osenv.stdoutIsCharDevice
      else ciVars.any fun v => !(osenv.getenv v).isEmpty) ∧
    (isHeadlessMode osenv = true →
      selectEnvironmentWithArrows caps osenv config inputs =
        (.ok e, inputs, [headlessInfoLine e.Name])) ∧
    (isHeadlessMode osenv = false →
      selectEnvironmentWithArrows caps osenv config inputs =
        fallbackToNumberedSelection caps config inputs) := by
  have htl : tl ≠ [] := by
    rw [henv] at h2
    intro hx
    rw [hx] at h2
    simp at h2
  refine ⟨rfl, ?_, ?_⟩
  · intro hh
    simp [selectEnvironmentWithArrows, henv, hT, hh, htl]
  · intro hh
    simp [selectEnvironmentWithArrows, henv, hT, hh, htl]

/-- Witness for C2 (amended): a piped-stdout session with two profiles
selects the first and prints the informational line. -/
theorem headless_tier_condition_witness :
    (sampleCapsNoTTY.IsTerminal = false ∧
      sampleConfig2.Environments.length = 2 ∧
      isHeadlessMode sampleRedirectedEnv = true) ∧
    selectEnvironmentWithArrows sampleCapsNoTTY sampleRedirectedEnv
        sampleConfig2 [] =
      (.ok sampleEnvA, [], [headlessInfoLine "prod".toList]) := by
  refine ⟨⟨rfl, rfl, rfl⟩, ?_⟩
  exact (headless_tier_condition sampleCapsNoTTY sampleRedirectedEnv
    sampleConfig2 [] sampleEnvA [sampleEnvB]
    rfl rfl (by decide)).2.1 rfl
